import Mathlib

/-!
Verification of the PinholeViewerPlus brightness/EV pipeline
(`backend/server.py`).

The endpoint `analyze_brightness` decodes an uploaded image, converts it
to RGB, downsamples it with `Image.thumbnail((200, 200))`, averages the
BT.601 luma of the pixels, maps the average through a five-segment
piecewise-linear EV curve, rounds the two floats to two decimal places
and returns `{avg_luminance, ev, pixel_count}`; any exception is caught
and turned into `({"error": str(e)}, 500)`.  The endpoint
`get_status_checks` lists at most the first 1000 stored status checks.

Real arithmetic is embedded as exact rationals (`ℚ`); Python's
`round(x, 2)` is embedded as round-half-to-even on the scaled value.
-/

namespace PinholeViewer

/-- An RGB pixel sample as produced by `image.getdata()`: a triple of
8-bit channel intensities. -/
structure Pixel where
  r : Nat
  g : Nat
  b : Nat
deriving DecidableEq

/-- BT.601 luma of one pixel: `0.299 * r + 0.587 * g + 0.114 * b`
(server.py line 82). -/
def luma (p : Pixel) : ℚ :=
  0.299 * p.r + 0.587 * p.g + 0.114 * p.b

/-- The accumulation loop of server.py lines 80-83:
`total_luminance = 0`, then `total_luminance += luminance` per pixel. -/
def totalLuminance (pixels : List Pixel) : ℚ :=
  pixels.foldl (fun acc p => acc + luma p) 0

/-- `avg_luminance = total_luminance / len(pixels)` (server.py line 85). -/
def avgLuminance (pixels : List Pixel) : ℚ :=
  totalLuminance pixels / pixels.length

/-- First EV branch, `ev = 2 + (avg_luminance / 30) * 4` (line 99). -/
def seg1 (L : ℚ) : ℚ := 2 + (L / 30) * 4

/-- Second EV branch, `ev = 6 + ((avg_luminance - 30) / 30) * 3` (line 101). -/
def seg2 (L : ℚ) : ℚ := 6 + ((L - 30) / 30) * 3

/-- Third EV branch, `ev = 9 + ((avg_luminance - 60) / 60) * 3` (line 103). -/
def seg3 (L : ℚ) : ℚ := 9 + ((L - 60) / 60) * 3

/-- Fourth EV branch, `ev = 12 + ((avg_luminance - 120) / 60) * 2` (line 105). -/
def seg4 (L : ℚ) : ℚ := 12 + ((L - 120) / 60) * 2

/-- Fifth EV branch, `ev = 14 + ((avg_luminance - 180) / 75) * 3` (line 107). -/
def seg5 (L : ℚ) : ℚ := 14 + ((L - 180) / 75) * 3

/-- The `if avg_luminance < 30 ... elif ... else` cascade of
server.py lines 98-107. -/
def luminanceToEV (L : ℚ) : ℚ :=
  if L < 30 then seg1 L
  else if L < 60 then seg2 L
  else if L < 120 then seg3 L
  else if L < 180 then seg4 L
  else seg5 L

/-- Round-half-to-even to the nearest integer, the tie-breaking rule of
Python's builtin `round`. -/
def roundHalfEven (q : ℚ) : ℤ :=
  if q - ⌊q⌋ < 1 / 2 then ⌊q⌋
  else if 1 / 2 < q - ⌊q⌋ then ⌊q⌋ + 1
  else if ⌊q⌋ % 2 = 0 then ⌊q⌋ else ⌊q⌋ + 1

/-- Python's `round(x, 2)` (server.py lines 112-113), idealized over
exact rationals. -/
def round2 (q : ℚ) : ℚ :=
  (roundHalfEven (q * 100) : ℚ) / 100

/-- The EV mapping exactly as worded in the spec's table in section 4.3:
five segments, each lower bound inclusive and upper bound exclusive, the
final segment closed at 255.  Inputs outside `[0, 255]` are outside the
spec's contract and are mapped to a junk value. -/
def specEVMapper (L : ℚ) : ℚ :=
  if 0 ≤ L ∧ L < 30 then 2 + (L / 30) * 4
  else if 30 ≤ L ∧ L < 60 then 6 + ((L - 30) / 30) * 3
  else if 60 ≤ L ∧ L < 120 then 9 + ((L - 60) / 60) * 3
  else if 120 ≤ L ∧ L < 180 then 12 + ((L - 120) / 60) * 2
  else if 180 ≤ L ∧ L ≤ 255 then 14 + ((L - 180) / 75) * 3
  else 0

/-- C1: on the whole contract domain `[0, 255]` the code's `if/elif`
cascade computes exactly the spec's five-segment piecewise-linear curve
with lower bounds inclusive, upper bounds exclusive, and the final
segment closed at 255. -/
theorem ev_matches_spec (L : ℚ) (h0 : 0 ≤ L) (h255 : L ≤ 255) :
    luminanceToEV L = specEVMapper L := by
  unfold luminanceToEV specEVMapper seg1 seg2 seg3 seg4 seg5
  rcases lt_or_le L 30 with h1 | h1
  · rw [if_pos h1, if_pos ⟨h0, h1⟩]
  · rw [if_neg (not_lt.mpr h1),
        if_neg (fun hc : 0 ≤ L ∧ L < 30 => (not_lt.mpr h1) hc.2)]
    rcases lt_or_le L 60 with h2 | h2
    · rw [if_pos h2, if_pos ⟨h1, h2⟩]
    · rw [if_neg (not_lt.mpr h2),
          if_neg (fun hc : 30 ≤ L ∧ L < 60 => (not_lt.mpr h2) hc.2)]
      rcases lt_or_le L 120 with h3 | h3
      · rw [if_pos h3, if_pos ⟨h2, h3⟩]
      · rw [if_neg (not_lt.mpr h3),
            if_neg (fun hc : 60 ≤ L ∧ L < 120 => (not_lt.mpr h3) hc.2)]
        rcases lt_or_le L 180 with h4 | h4
        · rw [if_pos h4, if_pos ⟨h3, h4⟩]
        · rw [if_neg (not_lt.mpr h4),
              if_neg (fun hc : 120 ≤ L ∧ L < 180 => (not_lt.mpr h4) hc.2),
              if_pos ⟨h4, h255⟩]

/-- Witness for `ev_matches_spec` at the concrete luminance 100. -/
theorem ev_matches_spec_witness :
    luminanceToEV 100 = specEVMapper 100 :=
  ev_matches_spec 100 (by norm_num) (by norm_num)

/-- C5: the EV cascade of server.py lines 98-107 is monotonically
non-decreasing on `[0, 255]`. -/
theorem ev_monotone (L1 L2 : ℚ) (h0 : 0 ≤ L1) (h12 : L1 < L2)
    (h255 : L2 ≤ 255) : luminanceToEV L1 ≤ luminanceToEV L2 := by
  unfold luminanceToEV seg1 seg2 seg3 seg4 seg5
  split_ifs <;> linarith

/-- Witness for `ev_monotone` at the concrete pair (10, 200). -/
theorem ev_monotone_witness : luminanceToEV 10 ≤ luminanceToEV 200 :=
  ev_monotone 10 200 (by norm_num) (by norm_num) (by norm_num)

/-- C6: adjacent EV branch formulas agree exactly at each breakpoint
(30 ↦ 6, 60 ↦ 9, 120 ↦ 12, 180 ↦ 14 — exact equality, hence within any
tolerance such as 1e-9), and the EV mapping is strictly increasing
inside each of the five segments. -/
theorem ev_continuity_and_strict_mono :
    (seg1 30 = 6 ∧ seg2 30 = 6) ∧
    (seg2 60 = 9 ∧ seg3 60 = 9) ∧
    (seg3 120 = 12 ∧ seg4 120 = 12) ∧
    (seg4 180 = 14 ∧ seg5 180 = 14) ∧
    (∀ L1 L2 : ℚ, 0 ≤ L1 → L1 < L2 → L2 < 30 →
      luminanceToEV L1 < luminanceToEV L2) ∧
    (∀ L1 L2 : ℚ, 30 ≤ L1 → L1 < L2 → L2 < 60 →
      luminanceToEV L1 < luminanceToEV L2) ∧
    (∀ L1 L2 : ℚ, 60 ≤ L1 → L1 < L2 → L2 < 120 →
      luminanceToEV L1 < luminanceToEV L2) ∧
    (∀ L1 L2 : ℚ, 120 ≤ L1 → L1 < L2 → L2 < 180 →
      luminanceToEV L1 < luminanceToEV L2) ∧
    (∀ L1 L2 : ℚ, 180 ≤ L1 → L1 < L2 → L2 ≤ 255 →
      luminanceToEV L1 < luminanceToEV L2) := by
  refine ⟨⟨by norm_num [seg1], by norm_num [seg2]⟩,
          ⟨by norm_num [seg2], by norm_num [seg3]⟩,
          ⟨by norm_num [seg3], by norm_num [seg4]⟩,
          ⟨by norm_num [seg4], by norm_num [seg5]⟩, ?_, ?_, ?_, ?_, ?_⟩ <;>
    (intro L1 L2 ha hb hc
     unfold luminanceToEV seg1 seg2 seg3 seg4 seg5
     split_ifs <;> linarith)

/-- Witness for `ev_continuity_and_strict_mono`: strict growth inside
the first segment at the pair (5, 10). -/
theorem ev_continuity_and_strict_mono_witness :
    luminanceToEV 5 < luminanceToEV 10 :=
  ev_continuity_and_strict_mono.2.2.2.2.1 5 10
    (by norm_num) (by norm_num) (by norm_num)

/-- Python exceptions that can reach the `except Exception` handler of
server.py lines 117-119.  `emptyImageError` is the error class that the
spec postulates for zero-pixel images; the source never defines or
raises it, it is listed so that its absence from the code's behaviour
can be stated. -/
inductive PyError where
  | decodeError (msg : String)
  | zeroDivisionError
  | emptyImageError
  | otherError (msg : String)
deriving DecidableEq

/-- The `str(e)` rendering used in the error payload; Python renders a
`ZeroDivisionError` from `/` as "division by zero". -/
def describe : PyError → String
  | PyError.decodeError msg => msg
  | PyError.zeroDivisionError => "division by zero"
  | PyError.emptyImageError => "empty image"
  | PyError.otherError msg => msg

/-- The value returned by the endpoint: either the success dictionary
`{avg_luminance, ev, pixel_count}` (lines 111-115) or the error pair
`({"error": str(e)}, 500)` (line 119). -/
inductive Response where
  | success (avg_luminance ev : ℚ) (pixel_count : Nat)
  | errorPayload (error : String) (status : Nat)
deriving DecidableEq

/-- The body of the `try` block from the decoded pixel list onwards
(server.py lines 80-115).  The source performs no explicit emptiness
check: the `pixels.length = 0` test here embeds the semantics of the
Python division on line 85, which raises `ZeroDivisionError` when
`len(pixels) == 0`. -/
def analyzePixels (pixels : List Pixel) : Except PyError (ℚ × ℚ × Nat) :=
  if pixels.length = 0 then Except.error PyError.zeroDivisionError
  else
    Except.ok (round2 (avgLuminance pixels),
               round2 (luminanceToEV (avgLuminance pixels)),
               pixels.length)

/-- The whole endpoint (server.py lines 58-119): decoding is abstracted
as an `Except` input (a `DecodeError` or the decoded RGB pixel list);
the `except Exception` handler converts every raised error into the
`({"error": str(e)}, 500)` payload. -/
def analyze_brightness (decoded : Except PyError (List Pixel)) : Response :=
  match decoded with
  | Except.error e => Response.errorPayload (describe e) 500
  | Except.ok pixels =>
      match analyzePixels pixels with
      | Except.error e => Response.errorPayload (describe e) 500
      | Except.ok (avg, ev, n) => Response.success avg ev n

theorem foldl_add_luma (a : ℚ) (ps : List Pixel) :
    ps.foldl (fun acc p => acc + luma p) a = a + (ps.map luma).sum := by
  induction ps generalizing a with
  | nil => simp
  | cons p ps ih => simp [ih, add_assoc]

theorem totalLuminance_eq_sum (ps : List Pixel) :
    totalLuminance ps = (ps.map luma).sum := by
  simpa using foldl_add_luma 0 ps

/-- C4: for a non-empty pixel list, the computed average luminance is
the sum of the BT.601 luma `0.299*R + 0.587*G + 0.114*B` over all
samples, divided by the number of samples. -/
theorem avg_is_weighted_mean (ps : List Pixel) (h : ps ≠ []) :
    avgLuminance ps =
      (ps.map (fun p => 0.299 * (p.r : ℚ) + 0.587 * p.g + 0.114 * p.b)).sum
        / ps.length := by
  rw [avgLuminance, totalLuminance_eq_sum]
  rfl

/-- Witness for `avg_is_weighted_mean` on a concrete two-pixel list. -/
theorem avg_is_weighted_mean_witness :
    avgLuminance [⟨1, 2, 3⟩, ⟨4, 5, 6⟩] =
      (([⟨1, 2, 3⟩, ⟨4, 5, 6⟩] : List Pixel).map
          (fun p => 0.299 * (p.r : ℚ) + 0.587 * p.g + 0.114 * p.b)).sum
        / ([⟨1, 2, 3⟩, ⟨4, 5, 6⟩] : List Pixel).length :=
  avg_is_weighted_mean [⟨1, 2, 3⟩, ⟨4, 5, 6⟩] (by simp)

theorem analyzePixels_ok_iff (ps : List Pixel) (t : ℚ × ℚ × Nat) :
    analyzePixels ps = Except.ok t ↔
      ps.length ≠ 0 ∧
      t = (round2 (avgLuminance ps),
           round2 (luminanceToEV (avgLuminance ps)), ps.length) := by
  rw [analyzePixels]
  by_cases hl : ps.length = 0
  · simp [hl]
  · simp [hl, eq_comm]

/-- C2 counterexample: on an empty decoded pixel sequence the code
raises `ZeroDivisionError` at the division — not the spec's
`EmptyImageError` — because no emptiness check precedes the division;
the generic handler then converts it to an error payload. -/
theorem empty_image_not_emptyImageError :
    analyzePixels ([] : List Pixel) = Except.error PyError.zeroDivisionError ∧
    PyError.zeroDivisionError ≠ PyError.emptyImageError ∧
    analyze_brightness (Except.ok ([] : List Pixel)) =
      Response.errorPayload "division by zero" 500 :=
  ⟨rfl, by decide, rfl⟩

/-- C2 amended: if the decoded pixel sequence is empty, the division by
the sample count raises a division-by-zero fault (there is no explicit
emptiness check and no `EmptyImageError` in the code); the catch-all
handler converts it into the `{error}` payload with status 500, so the
fault does not propagate. -/
theorem empty_image_handled (pixels : List Pixel) (h : pixels.length = 0) :
    analyzePixels pixels = Except.error PyError.zeroDivisionError ∧
    analyze_brightness (Except.ok pixels) =
      Response.errorPayload "division by zero" 500 := by
  have h1 : analyzePixels pixels = Except.error PyError.zeroDivisionError := by
    rw [analyzePixels, if_pos h]
  refine ⟨h1, ?_⟩
  simp only [analyze_brightness]
  rw [h1]
  rfl

/-- Witness for `empty_image_handled` at the empty pixel list. -/
theorem empty_image_handled_witness :
    analyzePixels ([] : List Pixel) = Except.error PyError.zeroDivisionError :=
  (empty_image_handled [] rfl).1

/-- C3: every failure is caught at the formatter boundary: a decode
failure or any error raised inside the pipeline is returned as the
`{error: str(e)}` payload with status 500, and every output is either
such a payload or a complete success triple with a positive pixel
count — nothing propagates uncaught and no partial result exists. -/
theorem analyze_catches_all_failures (d : Except PyError (List Pixel)) :
    (∀ e, d = Except.error e →
      analyze_brightness d = Response.errorPayload (describe e) 500) ∧
    (∀ pixels e, d = Except.ok pixels →
      analyzePixels pixels = Except.error e →
      analyze_brightness d = Response.errorPayload (describe e) 500) ∧
    ((∃ msg, analyze_brightness d = Response.errorPayload msg 500) ∨
      (∃ avg ev n, analyze_brightness d = Response.success avg ev n ∧
        0 < n)) := by
  refine ⟨?_, ?_, ?_⟩
  · rintro e rfl; rfl
  · rintro pixels e rfl hp
    simp only [analyze_brightness]
    rw [hp]
  · cases d with
    | error e => exact Or.inl ⟨describe e, rfl⟩
    | ok pixels =>
      cases hp : analyzePixels pixels with
      | error e =>
        refine Or.inl ⟨describe e, ?_⟩
        simp only [analyze_brightness]
        rw [hp]
      | ok t =>
        obtain ⟨avg, ev, n⟩ := t
        obtain ⟨hne, ht⟩ := (analyzePixels_ok_iff pixels _).mp hp
        refine Or.inr ⟨avg, ev, n, ?_, ?_⟩
        · simp only [analyze_brightness]
          rw [hp]
        · have hn : n = pixels.length := by
            have := congrArg (fun t => t.2.2) ht
            simpa using this
          rw [hn]
          exact Nat.pos_of_ne_zero hne

/-- Witness for `analyze_catches_all_failures`: a concrete decode
failure is returned as the error payload with status 500. -/
theorem analyze_catches_all_failures_witness :
    analyze_brightness
        (Except.error (PyError.decodeError "cannot identify image file")) =
      Response.errorPayload "cannot identify image file" 500 :=
  (analyze_catches_all_failures _).1 _ rfl

/-- C9: the pipeline is deterministic — it is a pure function of the
decoded input, with no state retained between invocations, so equal
inputs give bit-for-bit equal responses. -/
theorem pipeline_deterministic (d1 d2 : Except PyError (List Pixel))
    (h : d1 = d2) : analyze_brightness d1 = analyze_brightness d2 := by
  rw [h]

/-- Witness for `pipeline_deterministic` on a concrete input. -/
theorem pipeline_deterministic_witness :
    analyze_brightness (Except.ok [⟨1, 2, 3⟩]) =
      analyze_brightness (Except.ok [⟨1, 2, 3⟩]) :=
  pipeline_deterministic _ _ rfl

/-- C7: on a uniform image every pixel (c,c,c) yields
`avg_luminance = c` exactly because the luma weights sum to 1, and the
rounded results are: c = 128 ↦ (128.00, 12.27) via the fourth branch,
c = 0 ↦ (0.00, 2.00), c = 255 ↦ (255.00, 17.00). -/
theorem uniform_image_results (n : Nat) (h : 0 < n) :
    (∀ c : Nat, avgLuminance (List.replicate n ⟨c, c, c⟩) = (c : ℚ)) ∧
    analyzePixels (List.replicate n ⟨128, 128, 128⟩) =
      Except.ok (128, 12.27, n) ∧
    analyzePixels (List.replicate n ⟨0, 0, 0⟩) = Except.ok (0, 2, n) ∧
    analyzePixels (List.replicate n ⟨255, 255, 255⟩) =
      Except.ok (255, 17, n) := by
  have havg : ∀ c : Nat,
      avgLuminance (List.replicate n (Pixel.mk c c c)) = (c : ℚ) := by
    intro c
    have hl : luma (Pixel.mk c c c) = (c : ℚ) := by
      rw [luma]
      push_cast
      ring
    rw [avgLuminance, totalLuminance_eq_sum, List.map_replicate, hl,
        List.sum_replicate, List.length_replicate, nsmul_eq_mul]
    exact mul_div_cancel_left₀ _ (Nat.cast_ne_zero.mpr h.ne')
  refine ⟨havg, ?_, ?_, ?_⟩ <;>
  · rw [analyzePixels_ok_iff]
    refine ⟨by simp [h.ne'], ?_⟩
    rw [havg]
    norm_num [round2, roundHalfEven, luminanceToEV,
              seg1, seg2, seg3, seg4, seg5, List.length_replicate]

/-- Witness for `uniform_image_results` on a concrete two-pixel grey
image. -/
theorem uniform_image_results_witness :
    avgLuminance (List.replicate 2 ⟨7, 7, 7⟩) = 7 ∧
    analyzePixels (List.replicate 2 ⟨0, 0, 0⟩) = Except.ok (0, 2, 2) :=
  ⟨by simpa using (uniform_image_results 2 (by decide)).1 7,
   (uniform_image_results 2 (by decide)).2.2.1⟩

/-- Modelled from the spec: the downsampling capability invoked as
`image.thumbnail((200, 200))` on server.py line 73 is provided by the
external imaging library, whose code is not part of this repository.
Section 4.1 step 3 of the spec describes it: downsample so neither
dimension exceeds 200 pixels while preserving aspect ratio; an image
already within the bound is left unchanged, and a scaled dimension is
never below 1. -/
def thumbnailDims (w h : Nat) : Nat × Nat :=
  if w ≤ 200 ∧ h ≤ 200 then (w, h)
  else if h ≤ w then (200, max 1 (h * 200 / w))
  else (max 1 (w * 200 / h), 200)

/-- Number of samples of the flattened grid after downsampling a
`w × h` image, i.e. the `len(pixels)` of server.py line 76. -/
def downsampledPixelCount (w h : Nat) : Nat :=
  (thumbnailDims w h).1 * (thumbnailDims w h).2

theorem scaled_dim_le (a b : Nat) (ha : 200 < a) (hba : b ≤ a) :
    b * 200 / a ≤ 200 := by
  calc b * 200 / a ≤ a * 200 / a :=
        Nat.div_le_div_right (Nat.mul_le_mul_right 200 hba)
    _ = 200 := Nat.mul_div_cancel_left 200 (by omega)

theorem thumbnailDims_le (w h : Nat) :
    (thumbnailDims w h).1 ≤ 200 ∧ (thumbnailDims w h).2 ≤ 200 := by
  rw [thumbnailDims]
  by_cases h1 : w ≤ 200 ∧ h ≤ 200
  · rw [if_pos h1]
    exact ⟨h1.1, h1.2⟩
  · rw [if_neg h1]
    by_cases h2 : h ≤ w
    · rw [if_pos h2]
      have hw : 200 < w := by omega
      exact ⟨le_refl 200, max_le (by omega) (scaled_dim_le w h hw h2)⟩
    · rw [if_neg h2]
      have hh : 200 < h := by omega
      exact ⟨max_le (by omega) (scaled_dim_le h w hh (by omega)),
             le_refl 200⟩

/-- C8: whatever the input resolution, the downsampling step bounds the
grid to at most 200 × 200, so the `pixel_count` of every successful
result computed over such a grid is at most 40,000. -/
theorem downsampling_bound (w h : Nat) :
    (thumbnailDims w h).1 ≤ 200 ∧ (thumbnailDims w h).2 ≤ 200 ∧
    downsampledPixelCount w h ≤ 40000 ∧
    ∀ (ps : List Pixel) (a e : ℚ) (n : Nat),
      ps.length = downsampledPixelCount w h →
      analyzePixels ps = Except.ok (a, e, n) → n ≤ 40000 := by
  obtain ⟨hw, hh⟩ := thumbnailDims_le w h
  have hc : downsampledPixelCount w h ≤ 40000 := by
    rw [downsampledPixelCount]
    calc (thumbnailDims w h).1 * (thumbnailDims w h).2 ≤ 200 * 200 :=
          Nat.mul_le_mul hw hh
      _ = 40000 := rfl
  refine ⟨hw, hh, hc, ?_⟩
  intro ps a e n hlen hok
  obtain ⟨hne, ht⟩ := (analyzePixels_ok_iff ps _).mp hok
  have hn : n = ps.length := by
    have := congrArg (fun t => t.2.2) ht
    simpa using this
  rw [hn, hlen]
  exact hc

/-- Witness for `downsampling_bound`: a concrete 1 × 1 image passes
through the pipeline with a pixel count within the bound. -/
theorem downsampling_bound_witness : (1 : Nat) ≤ 40000 :=
  (downsampling_bound 1 1).2.2.2 [⟨0, 0, 0⟩] 0 2 1 rfl
    ((analyzePixels_ok_iff _ _).mpr ⟨by simp, by
      norm_num [avgLuminance, totalLuminance, luma, round2, roundHalfEven,
                luminanceToEV, seg1]⟩)

/-- A stored status check record (server.py lines 33-36); the timestamp
is kept abstract as its serialized form. -/
structure StatusCheck where
  id : String
  client_name : String
  timestamp : String
deriving DecidableEq

/-- The `GET /status` handler (server.py lines 53-56).  The Mongo
cursor `db.status_checks.find()` is abstracted as the list of stored
documents in natural order; `.to_list(1000)` materializes at most the
first 1000 of them, and the comprehension rebuilds a `StatusCheck` from
each document. -/
def get_status_checks (stored : List StatusCheck) : List StatusCheck :=
  (stored.take 1000).map
    (fun sc => { id := sc.id, client_name := sc.client_name,
                 timestamp := sc.timestamp })

/-- C10: the status listing returns at most 1000 records — the first
1000 stored ones in order — and is the identity when at most 1000
records are stored; anything beyond the limit is silently dropped. -/
theorem get_status_checks_truncates (stored : List StatusCheck) :
    (get_status_checks stored).length ≤ 1000 ∧
    (∀ i : Nat, i < 1000 →
      (get_status_checks stored)[i]? = stored[i]?) ∧
    (stored.length ≤ 1000 → get_status_checks stored = stored) := by
  have hid : get_status_checks stored = stored.take 1000 := by
    rw [get_status_checks]
    have hfun : (fun sc : StatusCheck =>
        ({ id := sc.id, client_name := sc.client_name,
           timestamp := sc.timestamp } : StatusCheck)) = id := by
      funext sc
      rfl
    rw [hfun, List.map_id]
  refine ⟨?_, ?_, ?_⟩
  · rw [hid, List.length_take]
    exact min_le_left _ _
  · intro i hi
    rw [hid]
    exact List.getElem?_take_of_lt hi
  · intro hle
    rw [hid]
    exact List.take_of_length_le hle

/-- Witness for `get_status_checks_truncates` on a one-record store. -/
theorem get_status_checks_truncates_witness :
    (get_status_checks [⟨"a", "b", "c"⟩]).length ≤ 1000 ∧
    get_status_checks [⟨"a", "b", "c"⟩] = [⟨"a", "b", "c"⟩] :=
  ⟨(get_status_checks_truncates [⟨"a", "b", "c"⟩]).1,
   (get_status_checks_truncates [⟨"a", "b", "c"⟩]).2.2 (by simp)⟩

end PinholeViewer
